import Mathlib

namespace Kuroneko

/-!
Verification development for the Kuroneko manga downloader core
(`src/core/models.py`, `src/core/task_manager.py`, `src/core/plugin_manager.py`).

The Python code is shallowly embedded: Python floats used for chapter numbers
and progress fractions are modelled as rationals (`ℚ`), Python `int` counters
as `Nat`, fallible Python calls (which raise exceptions caught by a generic
`except`) as `Except String`, and `None`-able fields as `Option`.
-/

/-- Values stored in Python `Any`-typed slots (option defaults, option maps). -/
inductive PyVal where
  | pnone : PyVal
  | pstr : String → PyVal
  | pnum : ℚ → PyVal
  | pbool : Bool → PyVal
  deriving DecidableEq, Repr

/-- `TaskStatus` enum from `src/core/models.py`. -/
inductive TaskStatus where
  | QUEUED | VALIDATING | READY | DOWNLOADING | PAUSED | COMPLETED | FAILED | CANCELED
  deriving DecidableEq, Repr

/-- `FieldType` enum from `src/core/models.py`. -/
inductive FieldType where
  | TEXT | NUMBER | DROPDOWN | CHECKBOX | RANGE
  deriving DecidableEq, Repr

/-- `OptionField` dataclass from `src/core/models.py`. -/
structure OptionField where
  key : String
  label : String
  fieldType : FieldType
  default : PyVal := .pnone
  choices : List String := []
  minValue : Option ℚ := none
  maxValue : Option ℚ := none
  step : Option ℚ := none
  required : Bool := false
  description : String := ""
  deriving DecidableEq, Repr

/-- `OptionsSchema` dataclass from `src/core/models.py`. -/
structure OptionsSchema where
  fields : List OptionField := []
  deriving DecidableEq, Repr

/-- `OptionsSchema.get_defaults`: `{f.key: f.default for f in self.fields}`. -/
def OptionsSchema.get_defaults (s : OptionsSchema) : List (String × PyVal) :=
  s.fields.map (fun f => (f.key, f.default))

/-- `Chapter` dataclass from `src/core/models.py`. -/
structure Chapter where
  id : String
  number : ℚ
  title : String := ""
  url : String := ""
  translationTeamId : Option String := none
  language : String := "en"
  pageCount : Option Nat := none
  deriving DecidableEq, Repr

/-- `TranslationTeam` dataclass from `src/core/models.py`. -/
structure TranslationTeam where
  id : String
  name : String
  language : String := "en"
  deriving DecidableEq, Repr

/-- `MangaInfo` dataclass from `src/core/models.py`. -/
structure MangaInfo where
  title : String
  url : String
  coverUrl : Option String := none
  description : String := ""
  author : String := ""
  artist : String := ""
  status : String := ""
  chapters : List Chapter := []
  translationTeams : List TranslationTeam := []
  extra : List (String × PyVal) := []
  deriving DecidableEq, Repr

/-- `MangaInfo.chapter_range`: `(min, max)` chapter number, `(0, 0)` if empty. -/
def MangaInfo.chapter_range (mi : MangaInfo) : ℚ × ℚ :=
  match mi.chapters.map Chapter.number with
  | [] => (0, 0)
  | n :: ns => (ns.foldl min n, ns.foldl max n)

/-- Python truthiness of an `Optional[str]`: `None` and `""` are falsy. -/
def strTruthy : Option String → Bool
  | none => false
  | some s => !(s == "")

/-- `UserSelection` dataclass from `src/core/models.py`. -/
structure UserSelection where
  chapterStart : Option ℚ := none
  chapterEnd : Option ℚ := none
  translationTeamId : Option String := none
  language : Option String := none
  deriving DecidableEq, Repr

/-- The per-chapter keep-condition of `UserSelection.chapters_in_range`:
a chapter survives the loop body (no `continue` fires) iff this holds. -/
def UserSelection.keeps (s : UserSelection) (ch : Chapter) : Bool :=
  (match s.chapterStart with | none => true | some lo => decide (lo ≤ ch.number)) &&
  (match s.chapterEnd with | none => true | some hi => decide (ch.number ≤ hi)) &&
  (!(strTruthy s.translationTeamId) || ch.translationTeamId == s.translationTeamId) &&
  (!(strTruthy s.language) || some ch.language == s.language)

/-- Ordering used by the final `sorted(result, key=lambda c: c.number)`. -/
def chapterLE (a b : Chapter) : Prop := a.number ≤ b.number

instance : DecidableRel chapterLE := fun a b => inferInstanceAs (Decidable (a.number ≤ b.number))

instance : IsTotal Chapter chapterLE := ⟨fun a b => le_total a.number b.number⟩

instance : IsTrans Chapter chapterLE := ⟨fun _ _ _ h₁ h₂ => le_trans h₁ h₂⟩

/-- `UserSelection.chapters_in_range` from `src/core/models.py`: the loop with
`continue` guards is a filter by `keeps`, then a stable sort by chapter number
(the embedding's insertion sort is stable, as Python's `sorted` is). -/
def UserSelection.chapters_in_range (s : UserSelection) (chapters : List Chapter) : List Chapter :=
  List.insertionSort chapterLE (chapters.filter s.keeps)

/-- `CancelToken` flag state from `src/core/models.py` (two `threading.Event`s). -/
structure CancelTokenState where
  cancelled : Bool
  paused : Bool
  deriving DecidableEq, Repr

/-- `CancelToken.__init__`: both events start clear. -/
def CancelTokenState.fresh : CancelTokenState := ⟨false, false⟩

/-- `Task` dataclass from `src/core/models.py` (the `id` generation is opaque;
`speed`, `eta`, `current_chapter` are the display-only string fields). -/
structure Task where
  id : String := ""
  url : String := ""
  pluginId : Option String := none
  title : String := ""
  status : TaskStatus := .QUEUED
  progress : ℚ := 0
  speed : String := ""
  eta : String := ""
  currentChapter : String := ""
  totalChapters : Nat := 0
  completedChapters : Nat := 0
  errors : List String := []
  mangaInfo : Option MangaInfo := none
  selection : UserSelection := {}
  options : List (String × PyVal) := []
  cancelToken : CancelTokenState := CancelTokenState.fresh
  deriving DecidableEq, Repr

/-- `DownloadPlan` dataclass from `src/core/models.py`. -/
structure DownloadPlan where
  mangaTitle : String
  chapters : List Chapter
  outputDir : String := ""
  options : List (String × PyVal) := []
  extra : List (String × PyVal) := []
  deriving DecidableEq, Repr

/-- `DownloadPlan.total_chapters` property. -/
def DownloadPlan.total_chapters (p : DownloadPlan) : Nat := p.chapters.length

/-! ## `CancelToken.check` (src/core/models.py)

`check` runs on a thread while other threads may flip the two events, so it is
embedded over the sequence of flag states the loop observes: the state at
entry plus one state per `wait(timeout=0.5)` wake-up. -/

/-- Outcome of one `CancelToken.check` call. `raised` is the
`CancelledException`; `blocked` means the observation sequence ran out while
the loop condition still held (the caller is still waiting). -/
inductive CheckOutcome where
  | ok | raised | blocked
  deriving DecidableEq, Repr

/-- The `while self._paused.is_set() and not self._cancelled.is_set()` loop of
`CancelToken.check` followed by the final re-check `if self._cancelled.is_set()`.
`s` is the currently observed flag state, `future` the states seen at
subsequent wake-ups. -/
def pauseLoop : CancelTokenState → List CancelTokenState → CheckOutcome
  | s, future =>
    if s.paused && !s.cancelled then
      match future with
      | [] => .blocked
      | s' :: rest => pauseLoop s' rest
    else if s.cancelled then .raised else .ok

/-- `CancelToken.check`: the initial `if self._cancelled.is_set(): raise`,
then the pause loop with its final re-check. -/
def CancelTokenState.check (s : CancelTokenState) (future : List CancelTokenState) : CheckOutcome :=
  if s.cancelled then .raised else pauseLoop s future

/-! ## Task manager embedding (src/core/task_manager.py)

A plugin instance is modelled by the results of its fallible calls (any Python
exception raised inside them is caught by the scheduler's generic `except`, so
they are `Except String`); its `download` is modelled by the list of progress
reports it delivers to the callback and by how the call ends. -/

/-- One invocation of the progress callback:
`(chapter_num, page_num, total_pages, bytes_downloaded, speed_str)`. -/
structure ProgressReport where
  chapterNum : ℚ
  pageNum : Nat
  totalPages : Nat
  bytesDownloaded : Nat := 0
  speedStr : String := ""
  deriving DecidableEq, Repr

/-- How a `plugin.download(...)` call ends: normal return, a
`CancelledException`, or any other exception (with its message). -/
inductive DownloadOutcome where
  | success
  | cancelled
  | failure (msg : String)
  deriving DecidableEq, Repr

/-- Behavioural model of one loaded plugin as the task manager sees it. -/
structure PluginModel where
  fetchMangaInfo : String → Except String MangaInfo
  getOptionsSchema : MangaInfo → Except String OptionsSchema
  buildDownloadPlan : String → MangaInfo → UserSelection → List (String × PyVal) →
    Except String DownloadPlan
  downloadReports : DownloadPlan → List ProgressReport
  downloadOutcome : DownloadPlan → DownloadOutcome

/-- `PluginManager.get_plugin(plugin_id)` over the registry's dict:
`self.plugins.get(task.plugin_id)`; a `None` key finds nothing. -/
def getPlugin (reg : List (String × PluginModel)) : Option String → Option PluginModel
  | none => none
  | some pid => (reg.find? (fun e => e.1 == pid)).map (fun e => e.2)

/-- The generic `except Exception` arm of the task manager's job coroutines:
`task.status = FAILED; task.errors.append(str(e))`. -/
def taskFail (t : Task) (msg : String) : Task :=
  { t with status := .FAILED, errors := t.errors ++ [msg] }

/-- `TaskManager._validate_task_async`, sequentialized: each Python statement
mutates the task in order, and an exception at any point jumps to the
`except` arm with all mutations made so far retained. -/
def validateTaskAsync (reg : List (String × PluginModel)) (t : Task) : Task :=
  let t0 := { t with status := .VALIDATING }
  match getPlugin reg t0.pluginId with
  | none => taskFail t0 "No plugin found for task"
  | some pl =>
    match pl.fetchMangaInfo t0.url with
    | .error e => taskFail t0 e
    | .ok mi =>
      let t1 := { t0 with mangaInfo := some mi, title := mi.title }
      let r := mi.chapter_range
      let t2 := { t1 with selection :=
        { t1.selection with chapterStart := some r.1, chapterEnd := some r.2 } }
      let t3 := match mi.translationTeams with
        | [] => t2
        | tm :: _ => { t2 with selection :=
            { t2.selection with translationTeamId := some tm.id } }
      match pl.getOptionsSchema mi with
      | .error e => taskFail t3 e
      | .ok schema =>
        let t4 := { t3 with options := schema.get_defaults }
        { t4 with status := .READY, totalChapters := mi.chapters.length }

/-- The per-task guard of `TaskManager.validate_all_queued`:
`if task.status == TaskStatus.QUEUED and task.plugin_id`. -/
def validateAllQueuedStarts (t : Task) : Bool :=
  t.status == .QUEUED && strTruthy t.pluginId

/-- The per-task guard of `TaskManager.download_all_ready`:
`if task.status == TaskStatus.READY`. -/
def downloadAllReadyStarts (t : Task) : Bool :=
  t.status == .READY

/-- `TaskManager.start_download` acting on one task: returns the task after
the call and whether a `_download_task_async` job was scheduled.
`loopRunning` models `self._loop` being available. -/
def startDownload (t : Task) (loopRunning : Bool) : Task × Bool :=
  if t.status = .READY ∨ t.status = .PAUSED ∨ t.status = .QUEUED then
    if loopRunning then
      ({ t with cancelToken := CancelTokenState.fresh }, true)
    else (t, false)
  else (t, false)

/-- `TaskManager.pause_task` acting on one task. -/
def pauseTask (t : Task) : Task :=
  if t.status = .DOWNLOADING then
    { t with cancelToken := { t.cancelToken with paused := true }, status := .PAUSED }
  else t

/-- `TaskManager.resume_task` acting on one task: clear the pause flag on the
current token, then `start_download` (which itself swaps in a fresh token and
schedules a new download job). -/
def resumeTask (t : Task) (loopRunning : Bool) : Task × Bool :=
  if t.status = .PAUSED then
    let t1 := { t with cancelToken := { t.cancelToken with paused := false } }
    startDownload t1 loopRunning
  else (t, false)

/-- The opening statements of `_download_task_async`:
`task.status = DOWNLOADING; task.progress = 0.0`. -/
def downloadInit (t : Task) : Task :=
  { t with status := .DOWNLOADING, progress := 0 }

/-- One invocation of the nested `progress_callback` closure together with the
captured `last_chapter_num` cell. Mirrors the statement order of the source;
the "last page of current chapter" branch is dead code (`pass`) and adds
nothing. -/
def progressCallbackStep (t : Task) (last : Option ℚ) (r : ProgressReport) :
    Task × Option ℚ :=
  let t1 := if last ≠ none ∧ some r.chapterNum ≠ last then
    { t with completedChapters := t.completedChapters + 1 } else t
  let last1 := some r.chapterNum
  let t2 := { t1 with currentChapter := toString r.chapterNum, speed := r.speedStr }
  let chapterProgress : ℚ := (r.pageNum : ℚ) / ((max r.totalPages 1 : Nat) : ℚ)
  let overall : ℚ := ((t2.completedChapters : ℚ) + chapterProgress) /
    ((max t2.totalChapters 1 : Nat) : ℚ)
  ({ t2 with progress := min overall 1 }, last1)

/-- All callback invocations a `plugin.download` call delivers, in order. -/
def runCallbacks (t : Task) (last : Option ℚ) : List ProgressReport → Task × Option ℚ
  | [] => (t, last)
  | r :: rs =>
    let (t1, last1) := progressCallbackStep t last r
    runCallbacks t1 last1 rs

/-- The statements after a successful `plugin.download` return: count the last
chapter, then force `COMPLETED`, `progress = 1.0`,
`completed_chapters = total_chapters`. -/
def finishSuccess (t : Task) (last : Option ℚ) : Task :=
  let t1 := match last with
    | none => t
    | some _ => { t with completedChapters := t.completedChapters + 1 }
  { t1 with status := .COMPLETED, progress := 1, completedChapters := t1.totalChapters }

/-- The part of `_download_task_async` between `downloadInit` and the
`plugin.download` call, on a task whose `manga_info` is already known:
build the plan, set its output dir, set `task.total_chapters`. -/
def downloadWithInfo (t : Task) (mi : MangaInfo) (pl : PluginModel) (folder : String) :
    Task ⊕ (Task × DownloadPlan) :=
  match pl.buildDownloadPlan t.url mi t.selection t.options with
  | .error e => .inl (taskFail t e)
  | .ok plan0 =>
    let plan := { plan0 with outputDir := folder }
    .inr ({ t with totalChapters := plan.total_chapters }, plan)

/-- Plugin lookup and the `manga_info` refetch of `_download_task_async`,
then `downloadWithInfo`. `.inl` is the task after the `except` arm ran. -/
def downloadPrepare (t : Task) (p : Option PluginModel) (folder : String) :
    Task ⊕ (Task × PluginModel × DownloadPlan) :=
  match p with
  | none => .inl (taskFail t "No plugin found for task")
  | some pl =>
    match t.mangaInfo with
    | some mi =>
      match downloadWithInfo t mi pl folder with
      | .inl tf => .inl tf
      | .inr (t1, plan) => .inr (t1, pl, plan)
    | none =>
      match pl.fetchMangaInfo t.url with
      | .error e => .inl (taskFail t e)
      | .ok mi =>
        match downloadWithInfo { t with mangaInfo := some mi, title := mi.title } mi pl folder with
        | .inl tf => .inl tf
        | .inr (t2, plan) => .inr (t2, pl, plan)

/-- The whole `_download_task_async` job: init, prepare, deliver all progress
callbacks, then handle how `plugin.download` ended (normal return →
success fix-up; `CancelledException` → `CANCELED`; other exception →
`FAILED` plus appended error). -/
def downloadTaskAsync (t : Task) (p : Option PluginModel) (folder : String) : Task :=
  match downloadPrepare (downloadInit t) p folder with
  | .inl tf => tf
  | .inr (t1, pl, plan) =>
    let (t2, last) := runCallbacks t1 none (pl.downloadReports plan)
    match pl.downloadOutcome plan with
    | .success => finishSuccess t2 last
    | .cancelled => { t2 with status := .CANCELED }
    | .failure e => taskFail t2 e

/-- The task and reports of the C1 scenario: `total_chapters = 2`, the plugin
reports chapters `[1.0, 1.0, 2.0]` with pages `[1/2, 2/2, 1/1]`. -/
def c1Task : Task := { totalChapters := 2, status := .DOWNLOADING }

def c1Reports : List ProgressReport :=
  [{ chapterNum := 1, pageNum := 1, totalPages := 2 },
   { chapterNum := 1, pageNum := 2, totalPages := 2 },
   { chapterNum := 2, pageNum := 1, totalPages := 1 }]

/-- A concrete single-chapter plugin used by several witnesses: fetching
succeeds with one one-page chapter, the plan lists that chapter, and the
download reports its single page then returns normally. -/
def witnessChapter : Chapter := { id := "c1", number := 1, pageCount := some 1 }

def witnessInfo : MangaInfo := { title := "W", url := "u", chapters := [witnessChapter] }

def witnessPlan : DownloadPlan := { mangaTitle := "W", chapters := [witnessChapter] }

def witnessPlugin : PluginModel :=
  { fetchMangaInfo := fun _ => .ok witnessInfo
    getOptionsSchema := fun _ => .ok {}
    buildDownloadPlan := fun _ _ _ _ => .ok witnessPlan
    downloadReports := fun _ => [{ chapterNum := 1, pageNum := 1, totalPages := 1 }]
    downloadOutcome := fun _ => .success }

def witnessReadyTask : Task :=
  { url := "u", pluginId := some "p", status := .READY, mangaInfo := some witnessInfo }

/-- A task as `add_task` creates it when no plugin claims the URL:
`plugin_id` stays `None`, status `QUEUED`. -/
def c4Task : Task := { url := "https://nobody.example/x" }

/-- A plugin whose metadata fetch succeeds but whose `get_options_schema`
raises: the step after the metadata was already written into the task. -/
def c5BadPlugin : PluginModel :=
  { fetchMangaInfo := fun _ => .ok witnessInfo
    getOptionsSchema := fun _ => .error "schema exploded"
    buildDownloadPlan := fun _ _ _ _ => .error "unused"
    downloadReports := fun _ => []
    downloadOutcome := fun _ => .failure "unused" }

def c5Task : Task := { url := "u", pluginId := some "p" }

/-- The paused mid-download task of the C9 scenario: chapter 2 of 2 was being
reported, one chapter counted complete, progress 3/4. -/
def c9Task : Task :=
  { url := "u", pluginId := some "p", status := .PAUSED, progress := 3/4,
    completedChapters := 1, totalChapters := 2, currentChapter := "2",
    mangaInfo := some witnessInfo, cancelToken := ⟨false, true⟩ }

/-- The C10 witness task: a previous attempt left one counted chapter, an
error message, and partial progress behind. -/
def c10Task : Task :=
  { url := "u", pluginId := some "p", status := .READY, progress := 3/4,
    completedChapters := 1, errors := ["old failure"], mangaInfo := some witnessInfo }

/-! ## Plugin registry embedding (src/core/plugin_manager.py)

Discovery yields a list of candidate units (one per plugin subdirectory or
standalone file). Loading a unit runs its module, finds a `PluginInterface`
subclass, version-checks it and instantiates it; each fallible Python step is
an `Except`/`Option`. -/

/-- `PLUGIN_API_VERSION` from `src/core/plugin_interface.py`. -/
def PLUGIN_API_VERSION : Int := 1

/-- A successfully constructed plugin instance, as the registry stores it. -/
structure LoadedPlugin where
  id : String
  name : String
  deriving DecidableEq, Repr

/-- The plugin class found in a unit's module: its declared
`PLUGIN_API_VERSION` attribute (`none` models `hasattr` failing) and the
result of calling its constructor. -/
structure PluginClassM where
  apiVersion : Option Int
  construct : Except String LoadedPlugin

/-- One discoverable plugin unit: its name (subdirectory or file stem) and
the result of executing its module and scanning it for a plugin class
(`.error` = import/exec failure, `.ok none` = no `PluginInterface` subclass). -/
structure PluginUnit where
  name : String
  load : Except String (Option PluginClassM)

/-- All the fallible steps of `PluginManager._load_plugin` up to the point
where the instance is stored. -/
def loadPluginResult (u : PluginUnit) : Except String LoadedPlugin :=
  match u.load with
  | .error e => .error e
  | .ok none => .error "No PluginInterface subclass found"
  | .ok (some c) =>
    match c.apiVersion with
    | none => .error "Plugin missing PLUGIN_API_VERSION"
    | some v =>
      if v ≠ PLUGIN_API_VERSION then
        .error ("Plugin API version mismatch: plugin=" ++ toString v ++
          ", required=" ++ toString PLUGIN_API_VERSION)
      else c.construct

/-- Python `dict` insert (`d[k] = v`): replaces the value in place if the key
exists, else appends the new key at the end. -/
def dictInsert (d : List (String × α)) (k : String) (v : α) : List (String × α) :=
  if d.any (fun e => e.1 == k) then
    d.map (fun e => if e.1 == k then (k, v) else e)
  else d ++ [(k, v)]

/-- Registry state: `self.plugins` and `self.load_errors`. -/
structure RegistryState where
  plugins : List (String × LoadedPlugin) := []
  loadErrors : List (String × String) := []

/-- `PluginManager._load_plugin` acting on the registry state: on success the
plugin is stored under its own `id`; on any failure an error message is
recorded under the unit name and the scan continues (the `except` arm
returns `False` instead of propagating). -/
def loadPluginStep (st : RegistryState) (u : PluginUnit) : RegistryState × Bool :=
  match loadPluginResult u with
  | .error e => ({ st with loadErrors := dictInsert st.loadErrors u.name e }, false)
  | .ok plugin => ({ st with plugins := dictInsert st.plugins plugin.id plugin }, true)

/-- The scan loop of `discover_and_load` over a unit list, threading the
loaded count. -/
def scanUnits (st : RegistryState) (count : Nat) : List PluginUnit → RegistryState × Nat
  | [] => (st, count)
  | u :: us =>
    let (st1, okLoaded) := loadPluginStep st u
    scanUnits st1 (if okLoaded then count + 1 else count) us

/-- `PluginManager.discover_and_load`: clears both maps, scans every unit,
returns the new state and the count of successfully loaded plugins. -/
def discover_and_load (units : List PluginUnit) : RegistryState × Nat :=
  scanUnits {} 0 units

/-- `PluginManager.get_all_plugins`: `list(self.plugins.values())`. -/
def get_all_plugins (st : RegistryState) : List LoadedPlugin :=
  st.plugins.map (fun e => e.2)

/-- The error message recorded for an API version mismatch. -/
def mismatchMsg (v : Int) : String :=
  "Plugin API version mismatch: plugin=" ++ toString v ++
    ", required=" ++ toString PLUGIN_API_VERSION

/-- A version-mismatched unit and a valid one, for the C7 witness. -/
def badUnit : PluginUnit :=
  { name := "badplug", load := .ok (some { apiVersion := some 2, construct := .ok ⟨"b", "B"⟩ }) }

def goodUnit : PluginUnit :=
  { name := "goodplug", load := .ok (some { apiVersion := some 1, construct := .ok ⟨"g", "G"⟩ }) }

/-! ## Theorems -/

/-- Elements of `chapters_in_range` are exactly the kept elements of the input. -/
theorem mem_chapters_in_range (s : UserSelection) (C : List Chapter) (ch : Chapter) :
    ch ∈ s.chapters_in_range C ↔ ch ∈ C ∧ s.keeps ch = true := by
  simp [UserSelection.chapters_in_range, List.mem_filter]

/-- C2: for every chapter list `C` and selection `S`, `chapters_in_range S C`
is a subset of `C`, sorted ascending by chapter number, contains exactly the
chapters of `C` passing all of `S`'s bound/team/language filters, and the
operation is idempotent. -/
theorem chapters_in_range_correct (S : UserSelection) (C : List Chapter) :
    (∀ ch ∈ S.chapters_in_range C, ch ∈ C) ∧
    List.Sorted chapterLE (S.chapters_in_range C) ∧
    (∀ ch, ch ∈ S.chapters_in_range C ↔ ch ∈ C ∧ S.keeps ch = true) ∧
    S.chapters_in_range (S.chapters_in_range C) = S.chapters_in_range C := by
  refine ⟨fun ch h => ((mem_chapters_in_range S C ch).mp h).1,
    List.sorted_insertionSort chapterLE _,
    mem_chapters_in_range S C, ?_⟩
  have hall : ∀ ch ∈ S.chapters_in_range C, S.keeps ch = true :=
    fun ch h => ((mem_chapters_in_range S C ch).mp h).2
  have hsorted : List.Sorted chapterLE (S.chapters_in_range C) :=
    List.sorted_insertionSort chapterLE (List.filter S.keeps C)
  show List.insertionSort chapterLE (List.filter S.keeps (S.chapters_in_range C)) =
    S.chapters_in_range C
  rw [List.filter_eq_self.mpr hall]
  exact hsorted.insertionSort_eq

/-- Witness for `chapters_in_range_correct` at a concrete selection and list. -/
theorem chapters_in_range_correct_witness :
    UserSelection.chapters_in_range { chapterStart := some 2 }
      [{ id := "a", number := 1 }, { id := "b", number := 3 }] = [{ id := "b", number := 3 }] ∧
    UserSelection.chapters_in_range { chapterStart := some 2 }
      (UserSelection.chapters_in_range { chapterStart := some 2 }
        [{ id := "a", number := 1 }, { id := "b", number := 3 }]) =
      UserSelection.chapters_in_range { chapterStart := some 2 }
        [{ id := "a", number := 1 }, { id := "b", number := 3 }] :=
  ⟨by decide, (chapters_in_range_correct { chapterStart := some 2 }
    [{ id := "a", number := 1 }, { id := "b", number := 3 }]).2.2.2⟩

/-- C1 counterexample: in the scenario (chapters `[1.0, 1.0, 2.0]`, pages
`[1/2, 2/2, 1/1]`, `total_chapters = 2`), before the third callback is
processed `completed_chapters` is 0, not 1 as the claim states: the wrapped
callback only increments on a chapter-number change, and the first two
callbacks both report chapter 1.0. -/
theorem c1_counterexample :
    (runCallbacks c1Task none (c1Reports.take 2)).1.completedChapters ≠ 1 := by
  decide

/-- C1 amended: the wrapped callback increments `completed_chapters` exactly
when the reported chapter number differs from the last-seen one (and a
last-seen one exists); in the scenario, `completed_chapters` is 0 before the
third callback, becomes 1 after it, and after the plan finishes successfully
it is forced to `total_chapters = 2` with progress forced to 1.0. -/
theorem c1_progress_aggregation_scenario :
    (∀ (t : Task) (last : Option ℚ) (r : ProgressReport),
      (progressCallbackStep t last r).1.completedChapters =
        (if last ≠ none ∧ some r.chapterNum ≠ last
          then t.completedChapters + 1 else t.completedChapters)) ∧
    (runCallbacks c1Task none (c1Reports.take 2)).1.completedChapters = 0 ∧
    (runCallbacks c1Task none c1Reports).1.completedChapters = 1 ∧
    (finishSuccess (runCallbacks c1Task none c1Reports).1
        (runCallbacks c1Task none c1Reports).2).completedChapters = 2 ∧
    (finishSuccess (runCallbacks c1Task none c1Reports).1
        (runCallbacks c1Task none c1Reports).2).progress = 1 := by
  refine ⟨fun t last r => ?_, by decide, by decide, by decide, by decide⟩
  by_cases h : last ≠ none ∧ some r.chapterNum ≠ last <;>
    simp [progressCallbackStep, h]

/-- Unfolding equation for `runCallbacks` on a cons. -/
theorem runCallbacks_cons (t : Task) (last : Option ℚ) (r : ProgressReport)
    (rs : List ProgressReport) :
    runCallbacks t last (r :: rs) =
      runCallbacks (progressCallbackStep t last r).1 (progressCallbackStep t last r).2 rs := rfl

/-- The progress written by one callback invocation, in closed form. -/
theorem progressCallbackStep_progress (t : Task) (last : Option ℚ) (r : ProgressReport) :
    (progressCallbackStep t last r).1.progress =
      min ((((if last ≠ none ∧ some r.chapterNum ≠ last
            then t.completedChapters + 1 else t.completedChapters : Nat) : ℚ) +
          (r.pageNum : ℚ) / ((max r.totalPages 1 : Nat) : ℚ)) /
          ((max t.totalChapters 1 : Nat) : ℚ)) 1 := by
  by_cases hc : last ≠ none ∧ some r.chapterNum ≠ last <;> simp [progressCallbackStep, hc]

/-- Every single callback invocation leaves `progress` in `[0, 1]`. -/
theorem progressCallbackStep_progress_bounds (t : Task) (last : Option ℚ) (r : ProgressReport) :
    0 ≤ (progressCallbackStep t last r).1.progress ∧
      (progressCallbackStep t last r).1.progress ≤ 1 := by
  rw [progressCallbackStep_progress]
  exact ⟨le_min (div_nonneg (add_nonneg (Nat.cast_nonneg _)
      (div_nonneg (Nat.cast_nonneg _) (Nat.cast_nonneg _))) (Nat.cast_nonneg _)) zero_le_one,
    min_le_right _ _⟩

/-- Any run of callback invocations keeps `progress` in `[0, 1]`. -/
theorem runCallbacks_progress_bounds :
    ∀ (l : List ProgressReport) (t : Task) (last : Option ℚ),
      0 ≤ t.progress → t.progress ≤ 1 →
      0 ≤ (runCallbacks t last l).1.progress ∧ (runCallbacks t last l).1.progress ≤ 1
  | [], _, _, h0, h1 => ⟨h0, h1⟩
  | r :: rs, t, last, _, _ => by
    rw [runCallbacks_cons]
    exact runCallbacks_progress_bounds rs _ _
      (progressCallbackStep_progress_bounds t last r).1
      (progressCallbackStep_progress_bounds t last r).2

/-- The success fix-up forces `progress = 1.0`, `completed = total`, `COMPLETED`. -/
theorem finishSuccess_fields (t : Task) (last : Option ℚ) :
    (finishSuccess t last).progress = 1 ∧
    (finishSuccess t last).completedChapters = (finishSuccess t last).totalChapters ∧
    (finishSuccess t last).status = .COMPLETED := by
  cases last <;> simp [finishSuccess]

/-- Frame facts of the plan-building phase on a known `manga_info`: neither
branch touches `progress` or `completed_chapters`; the proceed branch keeps
`errors` and sets `total_chapters` from the plan. -/
theorem downloadWithInfo_frame (t : Task) (mi : MangaInfo) (pl : PluginModel) (folder : String) :
    (∀ tf, downloadWithInfo t mi pl folder = Sum.inl tf →
      tf.progress = t.progress ∧ tf.completedChapters = t.completedChapters) ∧
    (∀ t1 plan, downloadWithInfo t mi pl folder = Sum.inr (t1, plan) →
      t1.progress = t.progress ∧ t1.completedChapters = t.completedChapters ∧
      t1.errors = t.errors ∧ t1.totalChapters = plan.total_chapters) := by
  constructor
  · intro tf hh
    unfold downloadWithInfo at hh
    rcases h : pl.buildDownloadPlan t.url mi t.selection t.options with e | plan0 <;>
      rw [h] at hh <;> simp_all [taskFail]
    subst hh; simp [taskFail]
  · intro t1 plan hh
    unfold downloadWithInfo at hh
    rcases h : pl.buildDownloadPlan t.url mi t.selection t.options with e | plan0 <;>
      rw [h] at hh <;> simp_all [taskFail]
    obtain ⟨h1, h2⟩ := hh
    subst h2
    simp [← h1, DownloadPlan.total_chapters]

/-- Frame facts of the whole prepare phase of `_download_task_async`. -/
theorem downloadPrepare_frame (t : Task) (p : Option PluginModel) (folder : String) :
    (∀ tf, downloadPrepare t p folder = Sum.inl tf →
      tf.progress = t.progress ∧ tf.completedChapters = t.completedChapters) ∧
    (∀ t1 pl plan, downloadPrepare t p folder = Sum.inr (t1, pl, plan) →
      t1.progress = t.progress ∧ t1.completedChapters = t.completedChapters ∧
      t1.errors = t.errors ∧ t1.totalChapters = plan.total_chapters) := by
  constructor
  · intro tf hh
    unfold downloadPrepare at hh
    split at hh
    · simp only [Sum.inl.injEq] at hh
      simp [← hh, taskFail]
    · rename_i pl
      split at hh
      · rename_i mi hmi
        split at hh
        · rename_i tf' hwi
          simp only [Sum.inl.injEq] at hh
          exact hh ▸ (downloadWithInfo_frame t mi pl folder).1 tf' hwi
        · simp at hh
      · rename_i hmi
        split at hh
        · rename_i e hf
          simp only [Sum.inl.injEq] at hh
          simp [← hh, taskFail]
        · rename_i mi hf
          split at hh
          · rename_i tf' hwi
            simp only [Sum.inl.injEq] at hh
            have := (downloadWithInfo_frame { t with mangaInfo := some mi, title := mi.title }
              mi pl folder).1 tf' hwi
            rw [hh] at this
            simpa using this
          · simp at hh
  · intro t1 pl plan hh
    unfold downloadPrepare at hh
    split at hh
    · simp at hh
    · rename_i pl0
      split at hh
      · rename_i mi hmi
        split at hh
        · simp at hh
        · rename_i t1' plan' hwi
          simp only [Sum.inr.injEq, Prod.mk.injEq] at hh
          obtain ⟨h1, h2, h3⟩ := hh
          subst h1; subst h2; subst h3
          exact (downloadWithInfo_frame t mi pl0 folder).2 _ _ hwi
      · rename_i hmi
        split at hh
        · simp at hh
        · rename_i mi hf
          split at hh
          · simp at hh
          · rename_i t2' plan' hwi
            simp only [Sum.inr.injEq, Prod.mk.injEq] at hh
            obtain ⟨h1, h2, h3⟩ := hh
            subst h1; subst h2; subst h3
            have := (downloadWithInfo_frame { t with mangaInfo := some mi, title := mi.title }
              mi pl0 folder).2 _ _ hwi
            simpa using this

/-- On a normal `plugin.download` return, `_download_task_async` ends with the
success fix-up applied to the post-callback state. -/
theorem downloadTaskAsync_success_eq (t : Task) (p : Option PluginModel) (folder : String)
    (t1 : Task) (pl : PluginModel) (plan : DownloadPlan)
    (hprep : downloadPrepare (downloadInit t) p folder = .inr (t1, pl, plan))
    (hout : pl.downloadOutcome plan = .success) :
    downloadTaskAsync t p folder =
      finishSuccess (runCallbacks t1 none (pl.downloadReports plan)).1
        (runCallbacks t1 none (pl.downloadReports plan)).2 := by
  unfold downloadTaskAsync
  rw [hprep]
  rcases hrc : runCallbacks t1 none (pl.downloadReports plan) with ⟨t2, last⟩
  simp [hrc, hout]

/-- If the prepare phase fails, the job ends with the task it produced. -/
theorem downloadTaskAsync_inl_eq (t : Task) (p : Option PluginModel) (folder : String)
    (tf : Task) (hprep : downloadPrepare (downloadInit t) p folder = .inl tf) :
    downloadTaskAsync t p folder = tf := by
  unfold downloadTaskAsync
  rw [hprep]

/-- On a `CancelledException` from `plugin.download`, the job only flips the
status of the post-callback state to `CANCELED`. -/
theorem downloadTaskAsync_cancelled_eq (t : Task) (p : Option PluginModel) (folder : String)
    (t1 : Task) (pl : PluginModel) (plan : DownloadPlan)
    (hprep : downloadPrepare (downloadInit t) p folder = .inr (t1, pl, plan))
    (hout : pl.downloadOutcome plan = .cancelled) :
    downloadTaskAsync t p folder =
      { (runCallbacks t1 none (pl.downloadReports plan)).1 with status := .CANCELED } := by
  unfold downloadTaskAsync
  rw [hprep]
  rcases hrc : runCallbacks t1 none (pl.downloadReports plan) with ⟨t2, last⟩
  simp [hrc, hout]

/-- On any other exception from `plugin.download`, the job fails the
post-callback state with the message appended. -/
theorem downloadTaskAsync_failure_eq (t : Task) (p : Option PluginModel) (folder : String)
    (t1 : Task) (pl : PluginModel) (plan : DownloadPlan) (e : String)
    (hprep : downloadPrepare (downloadInit t) p folder = .inr (t1, pl, plan))
    (hout : pl.downloadOutcome plan = .failure e) :
    downloadTaskAsync t p folder =
      taskFail (runCallbacks t1 none (pl.downloadReports plan)).1 e := by
  unfold downloadTaskAsync
  rw [hprep]
  rcases hrc : runCallbacks t1 none (pl.downloadReports plan) with ⟨t2, last⟩
  simp [hrc, hout]

/-- C3: task progress stays in `[0, 1]` at every observed point of a download
attempt — after the initial reset, after the prepare phase, after every prefix
of progress callbacks, and at the terminal state — and a successful plan
completion ends with `progress = 1.0` and `completed_chapters = total_chapters`
regardless of the incrementally accumulated count. -/
theorem progress_invariant_and_completion (t : Task) (p : Option PluginModel) (folder : String)
    (ht : 0 ≤ t.progress ∧ t.progress ≤ 1) :
    (0 ≤ t.progress ∧ t.progress ≤ 1) ∧
    (0 ≤ (downloadInit t).progress ∧ (downloadInit t).progress ≤ 1) ∧
    (∀ t1 pl plan, downloadPrepare (downloadInit t) p folder = .inr (t1, pl, plan) →
      ∀ pre rest, pl.downloadReports plan = pre ++ rest →
        0 ≤ (runCallbacks t1 none pre).1.progress ∧
          (runCallbacks t1 none pre).1.progress ≤ 1) ∧
    (0 ≤ (downloadTaskAsync t p folder).progress ∧
      (downloadTaskAsync t p folder).progress ≤ 1) ∧
    (∀ t1 pl plan, downloadPrepare (downloadInit t) p folder = .inr (t1, pl, plan) →
      pl.downloadOutcome plan = .success →
      (downloadTaskAsync t p folder).progress = 1 ∧
      (downloadTaskAsync t p folder).completedChapters =
        (downloadTaskAsync t p folder).totalChapters) := by
  have hinit : (downloadInit t).progress = 0 := rfl
  refine ⟨ht, ⟨le_of_eq hinit.symm, hinit ▸ zero_le_one⟩, ?_, ?_, ?_⟩
  · intro t1 pl plan hprep pre rest _
    have h1 : t1.progress = (downloadInit t).progress :=
      ((downloadPrepare_frame (downloadInit t) p folder).2 t1 pl plan hprep).1
    rw [hinit] at h1
    exact runCallbacks_progress_bounds pre t1 none (le_of_eq h1.symm) (h1 ▸ zero_le_one)
  · cases hprep : downloadPrepare (downloadInit t) p folder with
    | inl tf =>
      have h1 : tf.progress = (downloadInit t).progress :=
        ((downloadPrepare_frame (downloadInit t) p folder).1 tf hprep).1
      rw [hinit] at h1
      rw [downloadTaskAsync_inl_eq t p folder tf hprep]
      exact ⟨le_of_eq h1.symm, h1 ▸ zero_le_one⟩
    | inr x =>
      obtain ⟨t1, pl, plan⟩ := x
      have h1 : t1.progress = (downloadInit t).progress :=
        ((downloadPrepare_frame (downloadInit t) p folder).2 t1 pl plan hprep).1
      rw [hinit] at h1
      have hrun := runCallbacks_progress_bounds (pl.downloadReports plan) t1 none
        (le_of_eq h1.symm) (h1 ▸ zero_le_one)
      cases hout : pl.downloadOutcome plan with
      | success =>
        rw [downloadTaskAsync_success_eq t p folder t1 pl plan hprep hout]
        have hf := finishSuccess_fields (runCallbacks t1 none (pl.downloadReports plan)).1
          (runCallbacks t1 none (pl.downloadReports plan)).2
        rw [hf.1]
        exact ⟨zero_le_one, le_refl 1⟩
      | cancelled =>
        rw [downloadTaskAsync_cancelled_eq t p folder t1 pl plan hprep hout]
        exact hrun
      | failure e =>
        rw [downloadTaskAsync_failure_eq t p folder t1 pl plan e hprep hout]
        simpa [taskFail] using hrun
  · intro t1 pl plan hprep hout
    rw [downloadTaskAsync_success_eq t p folder t1 pl plan hprep hout]
    have hf := finishSuccess_fields (runCallbacks t1 none (pl.downloadReports plan)).1
      (runCallbacks t1 none (pl.downloadReports plan)).2
    exact ⟨hf.1, hf.2.1⟩

/-- Witness for `progress_invariant_and_completion`: the bounds and the
success postcondition at a concrete ready task and plugin. -/
theorem progress_invariant_and_completion_witness :
    (0 ≤ witnessReadyTask.progress ∧ witnessReadyTask.progress ≤ 1) ∧
    (0 ≤ (downloadTaskAsync witnessReadyTask (some witnessPlugin) "d").progress ∧
      (downloadTaskAsync witnessReadyTask (some witnessPlugin) "d").progress ≤ 1) :=
  ⟨by decide,
    (progress_invariant_and_completion witnessReadyTask (some witnessPlugin) "d"
      (by decide)).2.2.2.1⟩

/-- C4 counterexample: calling `validate_task` on a `QUEUED` task whose
`plugin_id` is `None` moves it out of `QUEUED`: `_validate_task_async` first
sets `VALIDATING`, then `get_plugin(None)` returns `None` and the raised
`ValueError` lands it in `FAILED`. -/
theorem c4_counterexample :
    (validateTaskAsync [] c4Task).status ≠ .QUEUED ∧ c4Task.pluginId = none ∧
      c4Task.status = .QUEUED := by
  refine ⟨?_, rfl, rfl⟩
  decide

/-- C4 amended: a task with `plugin_id = None` is never picked up by
`validate_all_queued`, and can never be successfully validated or downloaded —
but `validate_task` and `start_download` do move it out of `QUEUED`: each run
ends in `FAILED` (not `READY`/`COMPLETED`) with "No plugin found for task"
appended. `start_download` itself proceeds without touching the status or the
plugin id. -/
theorem c4_null_plugin_amended (t : Task) (reg : List (String × PluginModel))
    (lr : Bool) (folder : String) (h : t.pluginId = none) :
    validateAllQueuedStarts t = false ∧
    (validateTaskAsync reg t).status = .FAILED ∧
    (validateTaskAsync reg t).errors = t.errors ++ ["No plugin found for task"] ∧
    (downloadTaskAsync t (getPlugin reg t.pluginId) folder).status = .FAILED ∧
    (downloadTaskAsync t (getPlugin reg t.pluginId) folder).errors =
      t.errors ++ ["No plugin found for task"] ∧
    (startDownload t lr).1.pluginId = none ∧ (startDownload t lr).1.status = t.status := by
  have hget : getPlugin reg t.pluginId = none := by rw [h]; rfl
  have hprep : downloadPrepare (downloadInit t) (getPlugin reg t.pluginId) folder =
      .inl (taskFail (downloadInit t) "No plugin found for task") := by
    rw [hget]; rfl
  have hdl := downloadTaskAsync_inl_eq t (getPlugin reg t.pluginId) folder _ hprep
  refine ⟨?_, ?_, ?_, ?_, ?_, ?_, ?_⟩
  · simp [validateAllQueuedStarts, h, strTruthy]
  · simp [validateTaskAsync, hget, taskFail]
  · simp [validateTaskAsync, hget, taskFail]
  · rw [hdl]; rfl
  · rw [hdl]; rfl
  · unfold startDownload
    split <;> try split
    all_goals simp [h]
  · unfold startDownload
    split <;> try split
    all_goals rfl

/-- Witness for `c4_null_plugin_amended` at the concrete null-plugin task. -/
theorem c4_null_plugin_amended_witness :
    c4Task.pluginId = none ∧
    validateAllQueuedStarts c4Task = false ∧
    (validateTaskAsync [] c4Task).status = .FAILED :=
  ⟨rfl, (c4_null_plugin_amended c4Task [] true "d" rfl).1,
    (c4_null_plugin_amended c4Task [] true "d" rfl).2.1⟩

/-- C5 counterexample: when a later validation step fails (here
`get_options_schema` raising after a successful fetch), the task does go to
`FAILED` with the message appended, but partial metadata IS retained:
`manga_info`, `title` and the selection bounds were already mutated. -/
theorem c5_counterexample :
    (validateTaskAsync [("p", c5BadPlugin)] c5Task).status = .FAILED ∧
    (validateTaskAsync [("p", c5BadPlugin)] c5Task).mangaInfo ≠ c5Task.mangaInfo ∧
    (validateTaskAsync [("p", c5BadPlugin)] c5Task).title ≠ c5Task.title ∧
    (validateTaskAsync [("p", c5BadPlugin)] c5Task).selection ≠ c5Task.selection := by
  refine ⟨rfl, ?_, ?_, ?_⟩ <;> decide

/-- C5 amended: validation failure always yields `FAILED` with the message
appended and never sets `total_chapters` or `options`; metadata is untouched
when the failure is "no plugin" or a fetch failure, but when a later step
fails (the options-schema call), the already-assigned `manga_info`, `title`
and selection bounds are retained. Success yields `READY` with
`total_chapters` set and default selection/options populated. -/
theorem c5_validation_outcomes (t : Task) (reg : List (String × PluginModel)) :
    (getPlugin reg t.pluginId = none →
      (validateTaskAsync reg t).status = .FAILED ∧
      (validateTaskAsync reg t).errors = t.errors ++ ["No plugin found for task"] ∧
      (validateTaskAsync reg t).mangaInfo = t.mangaInfo ∧
      (validateTaskAsync reg t).title = t.title ∧
      (validateTaskAsync reg t).selection = t.selection ∧
      (validateTaskAsync reg t).options = t.options ∧
      (validateTaskAsync reg t).totalChapters = t.totalChapters) ∧
    (∀ pl e, getPlugin reg t.pluginId = some pl → pl.fetchMangaInfo t.url = .error e →
      (validateTaskAsync reg t).status = .FAILED ∧
      (validateTaskAsync reg t).errors = t.errors ++ [e] ∧
      (validateTaskAsync reg t).mangaInfo = t.mangaInfo ∧
      (validateTaskAsync reg t).title = t.title ∧
      (validateTaskAsync reg t).selection = t.selection ∧
      (validateTaskAsync reg t).options = t.options ∧
      (validateTaskAsync reg t).totalChapters = t.totalChapters) ∧
    (∀ pl mi e, getPlugin reg t.pluginId = some pl → pl.fetchMangaInfo t.url = .ok mi →
      pl.getOptionsSchema mi = .error e →
      (validateTaskAsync reg t).status = .FAILED ∧
      (validateTaskAsync reg t).errors = t.errors ++ [e] ∧
      (validateTaskAsync reg t).mangaInfo = some mi ∧
      (validateTaskAsync reg t).title = mi.title ∧
      (validateTaskAsync reg t).options = t.options ∧
      (validateTaskAsync reg t).totalChapters = t.totalChapters) ∧
    (∀ pl mi schema, getPlugin reg t.pluginId = some pl → pl.fetchMangaInfo t.url = .ok mi →
      pl.getOptionsSchema mi = .ok schema →
      (validateTaskAsync reg t).status = .READY ∧
      (validateTaskAsync reg t).totalChapters = mi.chapters.length ∧
      (validateTaskAsync reg t).mangaInfo = some mi ∧
      (validateTaskAsync reg t).title = mi.title ∧
      (validateTaskAsync reg t).options = schema.get_defaults ∧
      (validateTaskAsync reg t).errors = t.errors ∧
      (validateTaskAsync reg t).selection.chapterStart = some mi.chapter_range.1 ∧
      (validateTaskAsync reg t).selection.chapterEnd = some mi.chapter_range.2 ∧
      (validateTaskAsync reg t).selection.translationTeamId =
        (match mi.translationTeams with
          | [] => t.selection.translationTeamId
          | tm :: _ => some tm.id)) := by
  refine ⟨?_, ?_, ?_, ?_⟩
  · intro hp
    simp [validateTaskAsync, hp, taskFail]
  · intro pl e hp hf
    simp [validateTaskAsync, hp, hf, taskFail]
  · intro pl mi e hp hf hs
    simp only [validateTaskAsync, hp, hf, hs, taskFail]
    cases htm : mi.translationTeams <;> simp [htm]
  · intro pl mi schema hp hf hs
    simp only [validateTaskAsync, hp, hf, hs, taskFail]
    cases htm : mi.translationTeams <;> simp [htm]

/-- Witness for `c5_validation_outcomes`: the success branch at a concrete
task and plugin. -/
theorem c5_validation_outcomes_witness :
    (validateTaskAsync [("p", witnessPlugin)] c5Task).status = .READY ∧
    (validateTaskAsync [("p", witnessPlugin)] c5Task).totalChapters = 1 :=
  ⟨((c5_validation_outcomes c5Task [("p", witnessPlugin)]).2.2.2 witnessPlugin
      witnessInfo {} rfl rfl rfl).1,
    ((c5_validation_outcomes c5Task [("p", witnessPlugin)]).2.2.2 witnessPlugin
      witnessInfo {} rfl rfl rfl).2.1⟩

/-- The pause loop resolves by the first observed state in which the loop
condition fails (`not paused or cancelled`): it raises iff that state is
cancelled, returns iff it is resumed and not cancelled, and stays blocked if
no such state is ever observed. -/
theorem pauseLoop_spec : ∀ (future : List CancelTokenState) (s : CancelTokenState),
    pauseLoop s future =
      (match (s :: future).find? (fun x => !x.paused || x.cancelled) with
        | none => .blocked
        | some x => if x.cancelled then .raised else .ok)
  | future, s => by
    unfold pauseLoop
    by_cases hc : s.paused && !s.cancelled
    · rw [if_pos hc]
      have h12 : s.paused = true ∧ s.cancelled = false := by simpa using hc
      have h1 := h12.1
      have h2 := h12.2
      have hpred : ¬ ((fun (x : CancelTokenState) => !x.paused || x.cancelled) s = true) := by
        simp [h1, h2]
      rw [List.find?_cons_of_neg (p := fun (x : CancelTokenState) => !x.paused || x.cancelled)
        future hpred]
      cases future with
      | nil => rfl
      | cons s' rest => exact pauseLoop_spec rest s'
    · rw [if_neg hc]
      have hpred : (fun (x : CancelTokenState) => !x.paused || x.cancelled) s = true := by
        by_cases h1 : s.paused = true
        · have h2 : s.cancelled = true := by
            by_contra h3
            exact hc (by simp [h1, Bool.of_not_eq_true h3])
          simp [h2]
        · simp [Bool.of_not_eq_true h1]
      rw [List.find?_cons_of_pos (p := fun (x : CancelTokenState) => !x.paused || x.cancelled)
        future hpred]

/-- C6: `CancelToken.check` raises immediately when the token is cancelled at
entry; returns normally when neither flag is set; and otherwise its outcome is
decided by the first observed state whose loop condition fails — raising iff
cancellation is set there (re-check after unblocking), returning normally iff
the token was resumed without cancellation, and remaining blocked while every
observed state stays paused and uncancelled. -/
theorem cancel_token_check_correct (s : CancelTokenState) (future : List CancelTokenState) :
    (s.cancelled = true → s.check future = .raised) ∧
    (s.cancelled = false → s.paused = false → s.check future = .ok) ∧
    (s.check future =
      (match (s :: future).find? (fun x => !x.paused || x.cancelled) with
        | none => .blocked
        | some x => if x.cancelled then .raised else .ok)) := by
  refine ⟨fun hc => ?_, fun hc hp => ?_, ?_⟩
  · simp [CancelTokenState.check, hc]
  · unfold CancelTokenState.check
    rw [if_neg (by simp [hc])]
    unfold pauseLoop
    simp [hp, hc]
  · unfold CancelTokenState.check
    by_cases hc : s.cancelled = true
    · rw [if_pos hc]
      have hpred : (fun (x : CancelTokenState) => !x.paused || x.cancelled) s = true := by
        simp [hc]
      rw [List.find?_cons_of_pos (p := fun (x : CancelTokenState) => !x.paused || x.cancelled)
        future hpred]
      simp [hc]
    · rw [if_neg hc]
      exact pauseLoop_spec future s

/-- Witness for `cancel_token_check_correct`: a token cancelled at entry
raises at once; a paused token whose pause is later cleared returns normally;
a pause followed by cancellation raises. -/
theorem cancel_token_check_correct_witness :
    CancelTokenState.check ⟨true, false⟩ [] = .raised ∧
    CancelTokenState.check ⟨false, true⟩ [⟨false, true⟩, ⟨false, false⟩] = .ok ∧
    CancelTokenState.check ⟨false, true⟩ [⟨true, true⟩] = .raised :=
  ⟨(cancel_token_check_correct ⟨true, false⟩ []).1 rfl,
    by
      have h := (cancel_token_check_correct ⟨false, true⟩
        [⟨false, true⟩, ⟨false, false⟩]).2.2
      rw [h]; decide,
    by
      have h := (cancel_token_check_correct ⟨false, true⟩ [⟨true, true⟩]).2.2
      rw [h]; decide⟩

/-- C8: `start_download` proceeds only from `READY`, `PAUSED` or `QUEUED`,
and whenever it proceeds it swaps in a brand-new cancel token with both the
cancelled and paused flags clear — whatever the flags of the previous
attempt's token were. -/
theorem start_download_guard_fresh_token (t : Task) (lr : Bool) :
    (startDownload t lr).2 = true →
      (t.status = .READY ∨ t.status = .PAUSED ∨ t.status = .QUEUED) ∧
      (startDownload t lr).1.cancelToken.cancelled = false ∧
      (startDownload t lr).1.cancelToken.paused = false := by
  unfold startDownload
  split <;> try split
  · rename_i hst _
    intro _
    exact ⟨hst, rfl, rfl⟩
  · intro hfalse
    simp at hfalse
  · intro hfalse
    simp at hfalse

/-- Witness for `start_download_guard_fresh_token`: a `READY` task whose
previous token was cancelled and paused proceeds with a fully clear token. -/
theorem start_download_guard_fresh_token_witness :
    (startDownload { status := .READY, cancelToken := ⟨true, true⟩ } true).2 = true ∧
    (startDownload { status := .READY, cancelToken := ⟨true, true⟩ } true).1.cancelToken.cancelled
      = false :=
  ⟨by decide,
    (start_download_guard_fresh_token { status := .READY, cancelToken := ⟨true, true⟩ } true
      (by decide)).2.1⟩

/-- C9: evaluating the resume path at the failing input. `resume_task` clears
the pause flag (so the still-running job continues) but then calls
`start_download`, which schedules a second `_download_task_async`; that fresh
job's first statements reset the task's progress to 0.0 — not the claimed
"progress … not reset" — and it re-runs the whole plan with a fresh
last-chapter tracker. -/
theorem c9_resume_resets_progress :
    c9Task.status = .PAUSED ∧ c9Task.progress = 3/4 ∧
    (resumeTask c9Task true).2 = true ∧
    (resumeTask c9Task true).1.cancelToken = CancelTokenState.fresh ∧
    (downloadInit (resumeTask c9Task true).1).progress = 0 ∧
    (downloadInit (resumeTask c9Task true).1).progress ≠ c9Task.progress := by
  refine ⟨rfl, rfl, by decide, by decide, rfl, ?_⟩
  have h1 : (downloadInit (resumeTask c9Task true).1).progress = 0 := rfl
  have h2 : c9Task.progress = 3 / 4 := rfl
  rw [h1, h2]
  norm_num

/-- C10: starting a new download attempt resets `progress` to 0.0 but leaves
`completed_chapters` and `errors` exactly as the previous attempt left them;
the surviving `completed_chapters` feeds the new attempt's progress formula:
its first callback computes progress from the old count. -/
theorem download_attempt_frame (t : Task) (p : Option PluginModel) (folder : String) :
    ((downloadInit t).progress = 0 ∧
      (downloadInit t).completedChapters = t.completedChapters ∧
      (downloadInit t).errors = t.errors) ∧
    (∀ t1 pl plan, downloadPrepare (downloadInit t) p folder = .inr (t1, pl, plan) →
      t1.progress = 0 ∧ t1.completedChapters = t.completedChapters ∧ t1.errors = t.errors ∧
      (∀ r : ProgressReport,
        (progressCallbackStep t1 none r).1.progress =
          min (((t.completedChapters : ℚ) +
              (r.pageNum : ℚ) / ((max r.totalPages 1 : Nat) : ℚ)) /
            ((max t1.totalChapters 1 : Nat) : ℚ)) 1)) := by
  refine ⟨⟨rfl, rfl, rfl⟩, ?_⟩
  intro t1 pl plan hprep
  have hfr := (downloadPrepare_frame (downloadInit t) p folder).2 t1 pl plan hprep
  have hprog : t1.progress = 0 := hfr.1
  have hcompl : t1.completedChapters = t.completedChapters := hfr.2.1
  have herr : t1.errors = t.errors := hfr.2.2.1
  refine ⟨hprog, hcompl, herr, fun r => ?_⟩
  rw [progressCallbackStep_progress t1 none r]
  simp [hcompl]

/-- Witness for `download_attempt_frame` at a concrete re-downloaded task. -/
theorem download_attempt_frame_witness :
    ((downloadInit c10Task).progress = 0 ∧
      (downloadInit c10Task).completedChapters = 1 ∧
      (downloadInit c10Task).errors = ["old failure"]) ∧
    (progressCallbackStep
        { c10Task with status := .DOWNLOADING, progress := 0, totalChapters := 1 } none
        { chapterNum := 1, pageNum := 1, totalPages := 2 }).1.progress =
      min (((1 : ℚ) + (1 : ℚ) / 2) / 1) 1 :=
  ⟨(download_attempt_frame c10Task (some witnessPlugin) "d").1,
    by
      have h := ((download_attempt_frame c10Task (some witnessPlugin) "d").2
        { c10Task with status := .DOWNLOADING, progress := 0, totalChapters := 1 }
        witnessPlugin { witnessPlan with outputDir := "d" } rfl).2.2.2
        { chapterNum := 1, pageNum := 1, totalPages := 2 }
      rw [h]; norm_num [c10Task]⟩

/-- `dictInsert` keeps every existing key and adds the inserted one. -/
theorem dictInsert_keys (d : List (String × α)) (k : String) (v : α) (k0 : String)
    (h : k0 ∈ d.map Prod.fst ∨ k0 = k) : k0 ∈ (dictInsert d k v).map Prod.fst := by
  unfold dictInsert
  by_cases hmem : d.any (fun e => e.1 == k)
  · rw [if_pos hmem]
    rcases h with h | h
    · obtain ⟨e, he, hk⟩ := List.mem_map.mp h
      rcases hek : e.1 == k with _ | _
      · exact List.mem_map.mpr ⟨e, List.mem_map.mpr ⟨e, he, by simp [hek]⟩, hk⟩
      · refine List.mem_map.mpr ⟨(k, v), List.mem_map.mpr ⟨e, he, by simp [hek]⟩, ?_⟩
        simp only [← hk]
        exact (eq_of_beq hek).symm
    · subst h
      obtain ⟨e, he, hek⟩ := List.any_eq_true.mp hmem
      exact List.mem_map.mpr ⟨(k0, v), List.mem_map.mpr ⟨e, he, by simp [hek]⟩, rfl⟩
  · rw [if_neg hmem]
    rcases h with h | h
    · simpa using Or.inl h
    · subst h; simp

/-- A unit whose version check fails produces exactly the mismatch error. -/
theorem loadPluginResult_version_mismatch (u : PluginUnit) (c : PluginClassM) (v : Int)
    (hload : u.load = .ok (some c)) (hv : c.apiVersion = some v)
    (hne : v ≠ PLUGIN_API_VERSION) :
    loadPluginResult u = .error (mismatchMsg v) := by
  simp [loadPluginResult, mismatchMsg, hload, hv, hne]

/-- The scan's plugin map and loaded count do not depend on the error map. -/
theorem scanUnits_congr : ∀ (l : List PluginUnit) (st st' : RegistryState) (cnt : Nat),
    st.plugins = st'.plugins →
    (scanUnits st cnt l).1.plugins = (scanUnits st' cnt l).1.plugins ∧
    (scanUnits st cnt l).2 = (scanUnits st' cnt l).2
  | [], st, st', cnt, h => ⟨h, rfl⟩
  | u :: us, st, st', cnt, h => by
    unfold scanUnits loadPluginStep
    cases hres : loadPluginResult u with
    | error e =>
      exact scanUnits_congr us _ _ _ (by simpa using h)
    | ok plugin =>
      exact scanUnits_congr us _ _ _ (by simp [h])

/-- Keys already recorded in the error map survive the rest of the scan. -/
theorem scanUnits_errorKeys_mono : ∀ (l : List PluginUnit) (st : RegistryState) (cnt : Nat)
    (k : String), k ∈ st.loadErrors.map Prod.fst →
    k ∈ (scanUnits st cnt l).1.loadErrors.map Prod.fst
  | [], _, _, _, h => h
  | u :: us, st, cnt, k, h => by
    unfold scanUnits loadPluginStep
    cases hres : loadPluginResult u with
    | error e =>
      exact scanUnits_errorKeys_mono us _ _ k (dictInsert_keys _ _ _ _ (Or.inl h))
    | ok plugin =>
      exact scanUnits_errorKeys_mono us _ _ k h

/-- Scanning an appended list scans the first part, then the second. -/
theorem scanUnits_append : ∀ (l₁ l₂ : List PluginUnit) (st : RegistryState) (cnt : Nat),
    scanUnits st cnt (l₁ ++ l₂) =
      scanUnits (scanUnits st cnt l₁).1 (scanUnits st cnt l₁).2 l₂
  | [], l₂, st, cnt => rfl
  | u :: us, l₂, st, cnt => by
    rcases hres : loadPluginStep st u with ⟨st1, okLoaded⟩
    simp only [List.cons_append, scanUnits, hres]
    exact scanUnits_append us l₂ st1 (if okLoaded then cnt + 1 else cnt)

/-- C7: a unit whose declared `PLUGIN_API_VERSION` differs from the expected
version contributes nothing to `get_all_plugins()` and nothing to the loaded
count — the scan result is exactly that of the unit list without it, so every
other valid unit still loads — and an error keyed by the unit name is
recorded. -/
theorem plugin_api_version_mismatch_rejected
    (l₁ l₂ : List PluginUnit) (u : PluginUnit) (c : PluginClassM) (v : Int)
    (hload : u.load = .ok (some c)) (hv : c.apiVersion = some v)
    (hne : v ≠ PLUGIN_API_VERSION) :
    get_all_plugins (discover_and_load (l₁ ++ u :: l₂)).1 =
      get_all_plugins (discover_and_load (l₁ ++ l₂)).1 ∧
    (discover_and_load (l₁ ++ u :: l₂)).2 = (discover_and_load (l₁ ++ l₂)).2 ∧
    u.name ∈ (discover_and_load (l₁ ++ u :: l₂)).1.loadErrors.map Prod.fst := by
  have hres := loadPluginResult_version_mismatch u c v hload hv hne
  unfold discover_and_load
  rw [scanUnits_append l₁ (u :: l₂) {} 0, scanUnits_append l₁ l₂ {} 0]
  set A := scanUnits {} 0 l₁ with hA
  have hone : loadPluginStep A.1 u =
      ({ A.1 with loadErrors := dictInsert A.1.loadErrors u.name (mismatchMsg v) }, false) := by
    unfold loadPluginStep
    rw [hres]
  have hstep : scanUnits A.1 A.2 (u :: l₂) =
      scanUnits { A.1 with loadErrors := dictInsert A.1.loadErrors u.name (mismatchMsg v) }
        A.2 l₂ := by
    rcases hp : loadPluginStep A.1 u with ⟨st1, okLoaded⟩
    rw [hp] at hone
    simp only [Prod.mk.injEq] at hone
    simp [scanUnits, hp, hone.1, hone.2]
  rw [hstep]
  have hcongr := scanUnits_congr l₂
    { A.1 with loadErrors := dictInsert A.1.loadErrors u.name (mismatchMsg v) } A.1 A.2 rfl
  refine ⟨?_, hcongr.2, ?_⟩
  · unfold get_all_plugins
    rw [hcongr.1]
  · exact scanUnits_errorKeys_mono l₂ _ _ u.name
      (dictInsert_keys _ _ _ _ (Or.inr rfl))

/-- Witness for `plugin_api_version_mismatch_rejected`: scanning
`[badUnit, goodUnit]` loads only the valid plugin and records an error under
the bad unit's name. -/
theorem plugin_api_version_mismatch_rejected_witness :
    get_all_plugins (discover_and_load [badUnit, goodUnit]).1 =
      get_all_plugins (discover_and_load [goodUnit]).1 ∧
    "badplug" ∈ (discover_and_load [badUnit, goodUnit]).1.loadErrors.map Prod.fst ∧
    get_all_plugins (discover_and_load [goodUnit]).1 = [⟨"g", "G"⟩] :=
  ⟨(plugin_api_version_mismatch_rejected [] [goodUnit] badUnit
      { apiVersion := some 2, construct := .ok ⟨"b", "B"⟩ } 2 rfl rfl (by decide)).1,
    (plugin_api_version_mismatch_rejected [] [goodUnit] badUnit
      { apiVersion := some 2, construct := .ok ⟨"b", "B"⟩ } 2 rfl rfl (by decide)).2.2,
    by decide⟩

end Kuroneko
